import Mathlib

/-!
Shallow embedding of the Police Management System server
(entry module `src/unnamed/part_000` and `src/server/evidence-routes.js`).

JavaScript objects are modelled as association lists of JSON values,
MongoDB collections as lists of (ObjectId hex string, fields) pairs,
HTTP handlers as pure functions from request data and database state to
a response (and possibly a new database state), and the Express app as
the list of registered routes in registration order, with first-match
dispatch semantics.
-/

set_option maxHeartbeats 1000000

/-- A JSON/BSON value as handled by the route handlers: the shapes a
parsed JSON request body can carry, plus the driver's ObjectId values
(`oid`, a 24-hex-char id), which BSON equality never identifies with
strings. -/
inductive Json where
  | str (s : String)
  | num (n : Int)
  | bool (b : Bool)
  | null
  | oid (hex : String)
  | obj (fields : List (String × Json))
  | arr (elems : List Json)

mutual
/-- BSON value equality, as the driver uses to detect a duplicate `_id`
on insert: structural, with ObjectIds equal only to ObjectIds. -/
def Json.beq : Json → Json → Bool
  | .str a, .str b => a == b
  | .num a, .num b => a == b
  | .bool a, .bool b => a == b
  | .null, .null => true
  | .oid a, .oid b => a == b
  | .obj a, .obj b => Json.beqFields a b
  | .arr a, .arr b => Json.beqElems a b
  | _, _ => false

/-- Field-list equality component of [Json.beq]. -/
def Json.beqFields : List (String × Json) → List (String × Json) → Bool
  | [], [] => true
  | (k, v) :: t, (k2, v2) :: t2 => k == k2 && Json.beq v v2 && Json.beqFields t t2
  | _, _ => false

/-- Element-list equality component of [Json.beq]. -/
def Json.beqElems : List Json → List Json → Bool
  | [], [] => true
  | a :: t, b :: t2 => Json.beq a b && Json.beqElems t t2
  | _, _ => false
end

instance : BEq Json := ⟨Json.beq⟩

/-- JavaScript falsiness of an (optional) property value: `undefined`,
`null`, `""`, `0` and `false` are falsy, everything else truthy. -/
def jsFalsy : Option Json → Bool
  | none => true
  | some (.str s) => s == ""
  | some (.num n) => n == 0
  | some (.bool b) => !b
  | some .null => true
  | some (.oid _) => false
  | some (.obj _) => false
  | some (.arr _) => false

/-- JavaScript truthiness. -/
def jsTruthy (v : Option Json) : Bool := !(jsFalsy v)

/-- JavaScript property assignment `o.k = v` on an object modelled as an
association list: overwrite in place if the key exists, append otherwise. -/
def setField (l : List (String × Json)) (k : String) (v : Json) :
    List (String × Json) :=
  if (l.lookup k).isSome then
    l.map (fun p => if p.1 == k then (k, v) else p)
  else
    l ++ [(k, v)]

/-- `String.padStart(n, c)` from JavaScript: left-pad with `c` up to
length `n` (no truncation when already long enough). -/
def padStart (s : String) (n : Nat) (c : Char) : String :=
  String.mk (List.replicate (n - s.length) c ++ s.data)

/-- A JavaScript object literal that lists some properties and then
spreads an object: every property of the spread object is assigned in
order on top of the listed base, overwriting on key collision, so the
spread object's fields take precedence over the listed ones. -/
def spreadAfter (base o : List (String × Json)) : List (String × Json) :=
  o.foldl (fun acc p => setField acc p.1 p.2) base

/-- JavaScript `.toString()` on a stored `_id` value: an ObjectId prints
its 24-char hex, strings and numbers print themselves, and `null` has no
`.toString()` — a thrown TypeError, modelled as `none` and caught by the
routes' generic handlers.  Arrays cannot be `_id` values (the driver
rejects them at insert), so that branch is unreachable through the
handlers. -/
def jsToString : Json → Option String
  | .oid h => some h
  | .str s => some s
  | .num n => some n.repr
  | .bool b => some (if b then "true" else "false")
  | .null => none
  | .obj _ => some "[object Object]"
  | .arr _ => none

/-- A hex digit, as accepted by the MongoDB driver's ObjectId parser. -/
def isHexChar (c : Char) : Bool :=
  c.isDigit || ('a' ≤ c && c ≤ 'f') || ('A' ≤ c && c ≤ 'F')

/-- Modelled external collaborator (mongodb driver): `new ObjectId(s)`
succeeds exactly on 24-character hex strings. -/
def isValidObjectId (s : String) : Bool :=
  s.length == 24 && s.data.all isHexChar

/-- Modelled external collaborator (mongodb driver): `new ObjectId(s)`
normalised to lower case on success, a thrown `BSONError` otherwise. -/
def parseObjectId (s : String) : Option String :=
  if isValidObjectId s then some (String.mk (s.data.map Char.toLower)) else none

/-- A stored evidence document: its BSON `_id` value (a driver-generated
ObjectId or a client-supplied value) and its remaining fields. -/
abbrev EvDoc := Json × List (String × Json)

/-- The `evidence` MongoDB collection together with the driver's ObjectId
generator state (modelled as a counter yielding fresh hex ids). -/
structure DbState where
  docs : List EvDoc
  nextOid : Nat

/-- Fresh `_id` generated by the driver for the `n`-th insert. -/
def genOid (n : Nat) : String :=
  padStart (String.mk (Nat.toDigits 16 n)) 24 '0'

namespace EvidenceCRUD

/-- `EvidenceCRUD.create` (evidence-routes.js lines 7-22): generate the
evidence number from `countDocuments() + 1` when absent/falsy, stamp
`createdAt`/`updatedAt` with the current date `now`, then `insertOne`.
A client-supplied `_id` is used by the driver: one BSON-equal to an
existing document's `_id` raises the duplicate-key error E11000
(`.error 11000`), and an array `_id` is rejected outright (`.error 0`,
an error without the duplicate-key code).  Without a client `_id` the
driver generates a fresh ObjectId, unique by the driver's guarantee.
On success the returned object is `_id: result.insertedId`
spread-overridden by the document fields, as in the source's
`return` of `_id` followed by the spread of `evidenceData`. -/
def create (db : DbState) (evidenceData : List (String × Json)) (now : Json) :
    Except Nat (DbState × List (String × Json)) :=
  let d1 := if jsFalsy (evidenceData.lookup "evidenceNumber") then
      setField evidenceData "evidenceNumber"
        (.str ("EV-" ++ padStart (Nat.repr (db.docs.length + 1)) 6 '0'))
    else evidenceData
  let d2 := setField (setField d1 "createdAt" now) "updatedAt" now
  match d2.lookup "_id" with
  | some (.arr _) => .error 0
  | some v =>
    if db.docs.any (fun d => d.1 == v) then .error 11000
    else .ok (⟨db.docs ++ [(v, d2)], db.nextOid⟩, spreadAfter [("_id", v)] d2)
  | none =>
    let oid := Json.oid (genOid db.nextOid)
    .ok (⟨db.docs ++ [(oid, d2)], db.nextOid + 1⟩, spreadAfter [("_id", oid)] d2)

/-- `EvidenceCRUD.findById` (lines 30-34): ObjectId construction throws on
invalid input (`.error`), otherwise `findOne` by `_id`. -/
def findById (db : DbState) (id : String) : Except String (Option EvDoc) :=
  match parseObjectId id with
  | none => .error "BSONError"
  | some oid => .ok (db.docs.find? (fun d => d.1 == Json.oid oid))

/-- `EvidenceCRUD.update` (lines 36-46): ObjectId construction throws on
invalid input; otherwise `$set` the fields (with `updatedAt` stamped) on
the matching document and report whether a document was modified. -/
def update (db : DbState) (id : String) (updateData : List (String × Json))
    (now : Json) : Except String (DbState × Bool) :=
  match parseObjectId id with
  | none => .error "BSONError"
  | some oid =>
    let data := setField updateData "updatedAt" now
    if db.docs.any (fun d => d.1 == Json.oid oid) then
      .ok (⟨db.docs.map (fun d =>
              if d.1 == Json.oid oid then
                (d.1, data.foldl (fun f p => setField f p.1 p.2) d.2)
            else d), db.nextOid⟩, true)
    else
      .ok (db, false)

/-- `EvidenceCRUD.delete` (lines 48-53): ObjectId construction throws on
invalid input; otherwise delete by `_id` and report whether a document
was deleted. -/
def delete (db : DbState) (id : String) : Except String (DbState × Bool) :=
  match parseObjectId id with
  | none => .error "BSONError"
  | some oid =>
    if db.docs.any (fun d => d.1 == Json.oid oid) then
      .ok (⟨db.docs.filter (fun d => !(d.1 == Json.oid oid)), db.nextOid⟩, true)
    else
      .ok (db, false)

end EvidenceCRUD

/-- The body of an HTTP response. -/
inductive RBody where
  | json (j : Json)
  | file (name : String)
  | htmlPage (mongoConnected : Bool)

/-- An HTTP response: status code and body. -/
structure Response where
  status : Nat
  body : RBody

/-- The document as the driver returns it: its `_id` among the fields
(a field named `_id` in the stored fields, as with a client-supplied
`_id`, carries the same value and overrides harmlessly). -/
def docObj (d : EvDoc) : List (String × Json) :=
  spreadAfter [("_id", d.1)] d.2

/-- The response object built as `id: evidence._id.toString()` followed
by the spread of `evidence`: the spread comes after `id`, so an `id`
field inside `evidence` (client-supplied) overrides the generated one.
A `none` result models the TypeError thrown by `.toString()` on a null
`_id`, caught by the routes' generic handlers. -/
def transformEvidence (evidence : List (String × Json)) :
    Option (List (String × Json)) :=
  match jsToString ((evidence.lookup "_id").getD .null) with
  | none => none
  | some s => some (spreadAfter [("id", .str s)] evidence)

/-- Handler of `GET /api/evidence` (evidence-routes.js lines 60-75): a
`.toString()` throw while transforming any document is caught as 500. -/
def listEvidenceHandler (db : DbState) : Response :=
  match db.docs.mapM (fun d => transformEvidence (docObj d)) with
  | none => ⟨500, .json (.obj [("error", .str "Failed to fetch evidence")])⟩
  | some ts => ⟨200, .json (.obj [("evidence", .arr (ts.map .obj))])⟩

/-- Handler of `GET /api/evidence/:id` (lines 78-97): 500 on a thrown
ObjectId error, 404 when no document matches, 200 otherwise. -/
def getEvidenceByIdHandler (db : DbState) (id : String) : Response :=
  match EvidenceCRUD.findById db id with
  | .error _ => ⟨500, .json (.obj [("error", .str "Failed to fetch evidence")])⟩
  | .ok none => ⟨404, .json (.obj [("error", .str "Evidence not found")])⟩
  | .ok (some d) =>
    match transformEvidence (docObj d) with
    | none => ⟨500, .json (.obj [("error", .str "Failed to fetch evidence")])⟩
    | some t => ⟨200, .json (.obj [("evidence", .obj t)])⟩

/-- Handler of `POST /api/evidence` (lines 100-139): default
`collectedBy`, validate `type`/`description`/`location` (400 on failure),
then create; a duplicate-key error (code 11000) answers 409, any other
thrown error 500, success 201.  A `.toString()` throw while building the
response happens after the insert, so the document stays inserted. -/
def createEvidenceHandler (db : DbState) (body : List (String × Json))
    (now : Json) : Response × DbState :=
  let evidenceData := setField body "collectedBy"
    (if jsTruthy (body.lookup "collectedBy") then (body.lookup "collectedBy").getD .null
     else .str "Unknown Officer")
  if jsFalsy (evidenceData.lookup "type") || jsFalsy (evidenceData.lookup "description")
      || jsFalsy (evidenceData.lookup "location") then
    (⟨400, .json (.obj [("error",
        .str "Missing required fields: type, description, location")])⟩, db)
  else
    match EvidenceCRUD.create db evidenceData now with
    | .error 11000 =>
      (⟨409, .json (.obj [("error", .str "Evidence number already exists")])⟩, db)
    | .error _ =>
      (⟨500, .json (.obj [("error", .str "Failed to create evidence")])⟩, db)
    | .ok (db2, evidence) =>
      match transformEvidence evidence with
      | none =>
        (⟨500, .json (.obj [("error", .str "Failed to create evidence")])⟩, db2)
      | some t =>
        (⟨201, .json (.obj [("success", .bool true),
            ("evidence", .obj t),
            ("message", .str "Evidence created successfully")])⟩, db2)

/-- Handler of `PUT /api/evidence/:id` (lines 142-167). The re-fetch after
a successful update cannot miss in this sequential model; the impossible
branch mirrors the TypeError the source would throw (caught as 500). -/
def updateEvidenceHandler (db : DbState) (id : String)
    (body : List (String × Json)) (now : Json) : Response × DbState :=
  match EvidenceCRUD.update db id body now with
  | .error _ => (⟨500, .json (.obj [("error", .str "Failed to update evidence")])⟩, db)
  | .ok (db2, false) =>
    (⟨404, .json (.obj [("error", .str "Evidence not found")])⟩, db2)
  | .ok (db2, true) =>
    match EvidenceCRUD.findById db2 id with
    | .ok (some d) =>
      match transformEvidence (docObj d) with
      | some t =>
        (⟨200, .json (.obj [("success", .bool true),
            ("evidence", .obj t),
            ("message", .str "Evidence updated successfully")])⟩, db2)
      | none => (⟨500, .json (.obj [("error", .str "Failed to update evidence")])⟩, db2)
    | _ => (⟨500, .json (.obj [("error", .str "Failed to update evidence")])⟩, db2)

/-- Handler of `DELETE /api/evidence/:id` (lines 170-188). -/
def deleteEvidenceHandler (db : DbState) (id : String) : Response × DbState :=
  match EvidenceCRUD.delete db id with
  | .error _ => (⟨500, .json (.obj [("error", .str "Failed to delete evidence")])⟩, db)
  | .ok (db2, false) =>
    (⟨404, .json (.obj [("error", .str "Evidence not found")])⟩, db2)
  | .ok (db2, true) =>
    (⟨200, .json (.obj [("success", .bool true),
        ("message", .str "Evidence deleted successfully")])⟩, db2)

/-- HTTP request method. -/
inductive Method where
  | get | post | put | delete
deriving DecidableEq

/-- The startup environment of `startServer` (entry module): which
optional modules load, whether the connector/registrars/bundler/seeders
succeed when called, the environment flag, the bind outcome, and the
files present under the two static roots. -/
structure Config where
  mongoConnLoads : Bool
  mongoRoutesLoads : Bool
  evidenceRoutesLoads : Bool
  custodialRoutesLoads : Bool
  viteLoads : Bool
  seedGeofilesLoads : Bool
  apiRoutesLoads : Bool
  seedAdminLoads : Bool
  connectOk : Bool
  regMongoThrows : Bool
  regEvidenceThrows : Bool
  regCustodialThrows : Bool
  viteSetupOk : Bool
  seedGeofilesOk : Bool
  seedAdminOk : Bool
  isProduction : Bool
  bindError : Option String
  uploadsFiles : List String
  buildFiles : List String

/-- The `mongoConnected` flag as resolved by the connection step
(entry module lines 162-178): the connector module loaded and its call
resolved; a missing module or a rejected call leaves it `false`. -/
def mongoConnected (cfg : Config) : Bool :=
  cfg.mongoConnLoads && cfg.connectOk

/-- One registered Express route/middleware.  Routes registered by
modules outside this repository (mongodb-routes, custodial-routes,
api-routes, the vite dev middleware) are opaque: their paths are
unmodelled, so they match nothing here. -/
inductive Route where
  | uploadsStatic (files : List String)
  | feature (name : String)
  | health (mongoConnected : Bool)
  | evidenceList
  | evidenceGet
  | evidenceCreate
  | evidenceUpdate
  | evidenceDelete
  | apiCatchAll
  | buildStatic (files : List String)
  | prodCatchAll
  | vite
  | inlineFallback (mongoConnected : Bool)
deriving DecidableEq

/-- String prefix test on the underlying character lists. -/
def pathStarts (pre p : String) : Bool :=
  pre.data.isPrefixOf p.data

/-- Does `p` match the Express pattern `/api/evidence/:id` (one further
non-empty segment)? -/
def evidenceIdPath (p : String) : Bool :=
  pathStarts "/api/evidence/" p &&
    !(p.data.drop 14).isEmpty && !(p.data.drop 14).contains '/'

/-- The `:id` parameter captured by `/api/evidence/:id`. -/
def extractId (p : String) : String :=
  String.mk (p.data.drop 14)

/-- Which requests a registered route responds to.  `app.get` patterns
match only GET; the opaque external routes match nothing; the static
middlewares respond only when the file exists. -/
def routeMatches : Route → Method → String → Bool
  | .uploadsStatic files, m, p =>
    m == .get && pathStarts "/uploads/" p && files.contains p
  | .feature _, _, _ => false
  | .health _, m, p => m == .get && p == "/api/health"
  | .evidenceList, m, p => m == .get && p == "/api/evidence"
  | .evidenceGet, m, p => m == .get && evidenceIdPath p
  | .evidenceCreate, m, p => m == .post && p == "/api/evidence"
  | .evidenceUpdate, m, p => m == .put && evidenceIdPath p
  | .evidenceDelete, m, p => m == .delete && evidenceIdPath p
  | .apiCatchAll, m, p => m == .get && pathStarts "/api/" p
  | .buildStatic files, m, p => m == .get && files.contains p
  | .prodCatchAll, m, _ => m == .get
  | .vite, _, _ => false
  | .inlineFallback _, m, _ => m == .get

/-- The fixed 503 body of the fallback route (entry module lines 239-244). -/
def serviceUnavailableBody : Json :=
  .obj [("message", .str "Database not available. Please configure MongoDB URI in .env file."),
        ("status", .str "service_unavailable")]

/-- The health endpoint's body (entry module lines 228-235). -/
def healthBody (conn : Bool) (now : Json) : Json :=
  .obj [("status", .str "OK"), ("timestamp", now),
        ("mongodb", .str (if conn then "connected" else "disconnected")),
        ("message", .str (if conn then "All systems operational"
          else "Running in fallback mode - update MongoDB URI in .env"))]

/-- Run a matched route's handler.  `none` means the handler neither sent
a response nor delegated to the next handler (the request hangs). -/
def routeRun : Route → Method → String → List (String × Json) → Json →
    DbState → Option (Response × DbState)
  | .uploadsStatic _, _, p, _, _, db => some (⟨200, .file p⟩, db)
  | .feature _, _, _, _, _, _ => none
  | .health conn, _, _, _, now, db => some (⟨200, .json (healthBody conn now)⟩, db)
  | .evidenceList, _, _, _, _, db => some (listEvidenceHandler db, db)
  | .evidenceGet, _, p, _, _, db =>
    some (getEvidenceByIdHandler db (extractId p), db)
  | .evidenceCreate, _, _, body, now, db =>
    some (createEvidenceHandler db body now)
  | .evidenceUpdate, _, p, body, now, db =>
    some (updateEvidenceHandler db (extractId p) body now)
  | .evidenceDelete, _, p, _, _, db =>
    some (deleteEvidenceHandler db (extractId p))
  | .apiCatchAll, _, _, _, _, db =>
    some (⟨503, .json serviceUnavailableBody⟩, db)
  | .buildStatic _, _, p, _, _, db => some (⟨200, .file p⟩, db)
  | .prodCatchAll, _, p, _, _, db =>
    if pathStarts "/api" p then none else some (⟨200, .file "index.html"⟩, db)
  | .vite, _, _, _, _, _ => none
  | .inlineFallback conn, _, p, _, _, db =>
    if pathStarts "/api" p || pathStarts "/uploads" p then none
    else some (⟨200, .htmlPage conn⟩, db)

/-- Outcome of routing a request through the app: a response, a hang
(a handler matched but never responded), or the framework's default 404
when nothing matched. -/
inductive Outcome where
  | responded (r : Response) (db : DbState)
  | hang
  | notFound

/-- Express dispatch: the first matching registered route handles the
request. -/
def dispatch : List Route → Method → String → List (String × Json) → Json →
    DbState → Outcome
  | [], _, _, _, _, _ => .notFound
  | r :: rest, m, p, body, now, db =>
    if routeMatches r m p then
      match routeRun r m p body now db with
      | some (resp, db2) => .responded resp db2
      | none => .hang
    else dispatch rest m p body now db

/-- The frontend-serving strategy chosen by the entry module
(lines 247-303): production static + catch-all, else the vite dev server
when its setup succeeds, else the inline HTML fallback. -/
def frontendRoutes (cfg : Config) : List Route :=
  if cfg.isProduction then
    [.buildStatic cfg.buildFiles, .prodCatchAll]
  else if cfg.viteLoads then
    if cfg.viteSetupOk then [.vite]
    else [.inlineFallback (mongoConnected cfg)]
  else [.inlineFallback (mongoConnected cfg)]

/-- The five evidence routes registered by `registerEvidenceRoutes`, in
registration order. -/
def evidenceRouteList : List Route :=
  [.evidenceList, .evidenceGet, .evidenceCreate, .evidenceUpdate, .evidenceDelete]

/-- The complete Express app assembled by the entry module, in
registration order: the top-level uploads static middleware, the three
database-gated feature registrations (each skipped if its registrar
throws), the optional extra api-routes module, the second uploads static
middleware, the health endpoint, the 503 catch-all (only when the
database is not connected), and the frontend strategy. -/
def appRoutes (cfg : Config) : List Route :=
  [Route.uploadsStatic cfg.uploadsFiles]
  ++ (if mongoConnected cfg && cfg.mongoRoutesLoads && !cfg.regMongoThrows then
        [Route.feature "mongodb"] else [])
  ++ (if mongoConnected cfg && cfg.evidenceRoutesLoads && !cfg.regEvidenceThrows then
        evidenceRouteList else [])
  ++ (if mongoConnected cfg && cfg.custodialRoutesLoads && !cfg.regCustodialThrows then
        [Route.feature "custodial"] else [])
  ++ (if cfg.apiRoutesLoads then [Route.feature "additional"] else [])
  ++ [Route.uploadsStatic cfg.uploadsFiles]
  ++ [Route.health (mongoConnected cfg)]
  ++ (if mongoConnected cfg then [] else [Route.apiCatchAll])
  ++ frontendRoutes cfg

/-- The optional modules the entry module tries to load. -/
inductive ModName where
  | mongoConn | mongoRoutes | evidenceRoutes | custodialRoutes
  | vite | seedGeofiles | apiRoutes | seedAdmin
deriving DecidableEq

/-- The three database-gated feature route sets. -/
inductive Feat where
  | mongodb | evidence | custodial
deriving DecidableEq

/-- Observable startup events, in the order the entry module produces
them. -/
inductive Ev where
  | loadAttempt (m : ModName) (ok : Bool)
  | connectAttempt (ok : Bool)
  | connectSkipped
  | regAttempt (f : Feat) (ok : Bool)
  | seedGeofilesCall (ok : Bool)
  | seedAdminImport (ok : Bool)
  | seedAdminCall (ok : Bool)
  | listenOk
  | logBindError (msg : String)
  | logPortInUse
  | exitProcess (code : Nat)
deriving DecidableEq

/-- Module-loading step (entry module lines 100-160): each of the six
dynamic imports is attempted unconditionally and its failure only
recorded. -/
def loadTrace (cfg : Config) : List Ev :=
  [.loadAttempt .mongoConn cfg.mongoConnLoads,
   .loadAttempt .mongoRoutes cfg.mongoRoutesLoads,
   .loadAttempt .evidenceRoutes cfg.evidenceRoutesLoads,
   .loadAttempt .custodialRoutes cfg.custodialRoutesLoads,
   .loadAttempt .vite cfg.viteLoads,
   .loadAttempt .seedGeofiles cfg.seedGeofilesLoads]

/-- Connection step (lines 162-178): call the connector only when its
module loaded; a rejection is caught (the event records the failure) and
never escapes. -/
def connectTrace (cfg : Config) : List Ev :=
  if cfg.mongoConnLoads then [.connectAttempt cfg.connectOk] else [.connectSkipped]

/-- Route-registration step (lines 183-222): each feature is attempted
iff its module loaded and the database connected; a registrar that
throws is caught (recorded as `ok = false`) without stopping the later
registrations.  The optional api-routes import is attempted
unconditionally. -/
def regTrace (cfg : Config) : List Ev :=
  (if mongoConnected cfg && cfg.mongoRoutesLoads then
      [.regAttempt .mongodb (!cfg.regMongoThrows)] else [])
  ++ (if mongoConnected cfg && cfg.evidenceRoutesLoads then
      [.regAttempt .evidence (!cfg.regEvidenceThrows)] else [])
  ++ (if mongoConnected cfg && cfg.custodialRoutesLoads then
      [.regAttempt .custodial (!cfg.regCustodialThrows)] else [])
  ++ [.loadAttempt .apiRoutes cfg.apiRoutesLoads]

/-- The inner admin-seeding block (lines 314-321): dynamic import of
seed-admin, then the call; both failure modes are caught by the block's
own handler. -/
def adminEvents (cfg : Config) : List Ev :=
  .seedAdminImport cfg.seedAdminLoads ::
    (if cfg.seedAdminLoads then [.seedAdminCall cfg.seedAdminOk] else [])

/-- The background seeder callback (lines 307-325): geofile seeding runs
first when its module loaded; a throw there is caught by the outer
handler, which skips the admin block.  Otherwise the admin block runs. -/
def seederEvents (cfg : Config) : List Ev :=
  if cfg.seedGeofilesLoads then
    if cfg.seedGeofilesOk then .seedGeofilesCall true :: adminEvents cfg
    else [.seedGeofilesCall false]
  else adminEvents cfg

/-- Background seeding is scheduled only when the database connected
(line 306). -/
def seedTrace (cfg : Config) : List Ev :=
  if mongoConnected cfg then seederEvents cfg else []

/-- Listening step (lines 333-354): on success the server is live; on a
bind error the cause is logged, port-in-use flagged distinctly, and the
process exits with status 1. -/
def listenTrace (cfg : Config) : List Ev :=
  match cfg.bindError with
  | none => [.listenOk]
  | some e =>
    [.logBindError e] ++ (if e == "EADDRINUSE" then [.logPortInUse] else [])
      ++ [.exitProcess 1]

/-- The complete observable behaviour of one `startServer()` run. -/
def startTrace (cfg : Config) : List Ev :=
  loadTrace cfg ++ connectTrace cfg ++ regTrace cfg ++ seedTrace cfg
    ++ listenTrace cfg

theorem lookup_setField_self (l : List (String × Json)) (k : String) (v : Json) :
    (setField l k v).lookup k = some v := by
  unfold setField
  split
  · rename_i h
    induction l with
    | nil => simp at h
    | cons hd tl ih =>
      obtain ⟨a, b⟩ := hd
      simp only [List.map_cons]
      cases hak : (a == k) with
      | true =>
        rw [if_pos rfl]
        simp [List.lookup]
      | false =>
        rw [if_neg (by simp [hak])]
        have hne2 : (k == a) = false :=
          beq_eq_false_iff_ne.mpr fun hh => by
            simp [hh] at hak
        simp only [List.lookup, hne2]
        apply ih
        simpa [List.lookup, hne2] using h
  · rename_i h
    induction l with
    | nil => simp [List.lookup]
    | cons hd tl ih =>
      obtain ⟨a, b⟩ := hd
      have hne : (k == a) = false := by
        cases hkk : (k == a) with
        | true => simp [List.lookup, beq_iff_eq.mp hkk] at h
        | false => rfl
      simp only [List.cons_append, List.lookup, hne]
      apply ih
      simpa [List.lookup, hne] using h

theorem lookup_map_setfn (l : List (String × Json)) (k k' : String) (v : Json)
    (h : k' ≠ k) :
    (l.map (fun p => if p.1 == k then (k, v) else p)).lookup k' = l.lookup k' := by
  have hne : (k' == k) = false := beq_eq_false_iff_ne.mpr h
  induction l with
  | nil => simp
  | cons hd tl ih =>
    obtain ⟨a, b⟩ := hd
    simp only [List.map_cons]
    cases hak : (a == k) with
    | true =>
      rw [if_pos rfl]
      have h1 : (k' == a) = false := by
        rw [beq_iff_eq.mp hak]; exact hne
      simp only [List.lookup, hne, h1]
      exact ih
    | false =>
      rw [if_neg (by simp [hak])]
      simp only [List.lookup]
      cases hkk : (k' == a) with
      | true => simp
      | false => simpa using ih

theorem lookup_append_single (l : List (String × Json)) (k k' : String) (v : Json)
    (h : k' ≠ k) : (l ++ [(k, v)]).lookup k' = l.lookup k' := by
  have hne : (k' == k) = false := beq_eq_false_iff_ne.mpr h
  induction l with
  | nil => simp [List.lookup, hne]
  | cons hd tl ih =>
    obtain ⟨a, b⟩ := hd
    simp only [List.cons_append, List.lookup]
    cases hkk : (k' == a) with
    | true => simp
    | false => simpa using ih

theorem lookup_setField_ne (l : List (String × Json)) (k k' : String) (v : Json)
    (h : k' ≠ k) : (setField l k v).lookup k' = l.lookup k' := by
  unfold setField
  split
  · exact lookup_map_setfn l k k' v h
  · exact lookup_append_single l k k' v h

theorem digitChar_isDigit (n : Nat) (h : n < 10) :
    (Nat.digitChar n).isDigit = true := by
  interval_cases n <;> decide

theorem toDigitsCore_digits (fuel : Nat) :
    ∀ (n : Nat) (acc : List Char), (∀ c ∈ acc, c.isDigit = true) →
    ∀ c ∈ Nat.toDigitsCore 10 fuel n acc, c.isDigit = true := by
  induction fuel with
  | zero =>
    intro n acc hacc c hc
    exact hacc c hc
  | succ f ih =>
    intro n acc hacc c hc
    simp only [Nat.toDigitsCore] at hc
    have hd : ∀ x ∈ Nat.digitChar (n % 10) :: acc, x.isDigit = true := by
      intro x hx
      rcases List.mem_cons.mp hx with h1 | h2
      · rw [h1]; exact digitChar_isDigit _ (Nat.mod_lt _ (by omega))
      · exact hacc x h2
    split at hc
    · exact hd c hc
    · exact ih (n / 10) _ hd c hc

theorem repr_data_digits (n : Nat) : ∀ c ∈ (Nat.repr n).data, c.isDigit = true := by
  intro c hc
  have h : (Nat.repr n).data = Nat.toDigitsCore 10 (n + 1) n [] := rfl
  rw [h] at hc
  exact toDigitsCore_digits (n + 1) n [] (by simp) c hc

/-- Does the string start (at this position) with `EV-` followed by at
least six decimal digits? -/
def evHere : List Char → Bool
  | a :: b :: c :: rest =>
    a == 'E' && b == 'V' && c == '-'
      && ((rest.take 6).length == 6) && (rest.take 6).all Char.isDigit
  | _ => false

/-- Scan all positions of the string. -/
def evScan : List Char → Bool
  | [] => false
  | c :: t => evHere (c :: t) || evScan t

/-- JavaScript-style unanchored match of the pattern `EV-\d\x7b6\x7d`:
some position of the string starts with `EV-` and six decimal digits. -/
def matchesEVPattern (s : String) : Bool := evScan s.data

theorem matchesEVPattern_evnum (n : Nat) :
    matchesEVPattern ("EV-" ++ padStart (Nat.repr n) 6 '0') = true := by
  have hdata : ("EV-" ++ padStart (Nat.repr n) 6 '0').data
      = 'E' :: 'V' :: '-' ::
        (List.replicate (6 - (Nat.repr n).data.length) '0' ++ (Nat.repr n).data) := rfl
  unfold matchesEVPattern
  rw [hdata]
  have hlen : 6 ≤ (List.replicate (6 - (Nat.repr n).data.length) '0'
      ++ (Nat.repr n).data).length := by
    simp only [List.length_append, List.length_replicate]
    omega
  have hall : ∀ c ∈ List.replicate (6 - (Nat.repr n).data.length) '0'
      ++ (Nat.repr n).data, c.isDigit = true := by
    intro c hc
    rcases List.mem_append.mp hc with h1 | h2
    · rw [List.eq_of_mem_replicate h1]; decide
    · exact repr_data_digits n c h2
  simp only [evScan, evHere, Bool.or_eq_true, Bool.and_eq_true]
  left
  refine ⟨⟨⟨⟨rfl, rfl⟩, rfl⟩, ?_⟩, ?_⟩
  · simp only [List.length_take, beq_iff_eq]
    omega
  · exact List.all_eq_true.mpr fun c hc => hall c (List.take_subset _ _ hc)

/-- The field `k` of the `evidence` object in a JSON response body. -/
def respEvidenceField (r : Response) (k : String) : Option Json :=
  match r.body with
  | .json (.obj l) =>
    match l.lookup "evidence" with
    | some (.obj f) => f.lookup k
    | _ => none
  | _ => none

theorem jsFalsy_none : jsFalsy none = true := rfl

theorem jsTruthy_false (v : Option Json) (h : jsTruthy v = true) : jsFalsy v = false := by
  unfold jsTruthy at h
  cases hx : jsFalsy v with
  | false => rfl
  | true => rw [hx] at h; exact absurd h (by decide)

theorem keys_ne_of_lookup_none (l : List (String × Json)) (k : String) :
    l.lookup k = none → ∀ p ∈ l, p.1 ≠ k := by
  induction l with
  | nil => intro _ p hp; cases hp
  | cons hd tl ih =>
    obtain ⟨a, b⟩ := hd
    intro h p hp
    have hka : (k == a) = false := by
      cases hq : (k == a) with
      | true => simp [List.lookup, hq] at h
      | false => rfl
    rcases List.mem_cons.mp hp with rfl | hp2
    · intro hc
      rw [show a = k from hc] at hka
      simp at hka
    · refine ih ?_ p hp2
      simpa [List.lookup, hka] using h

theorem lookup_spreadAfter_none (o : List (String × Json)) (k : String) :
    o.lookup k = none → ∀ base, (spreadAfter base o).lookup k = base.lookup k := by
  induction o with
  | nil => intro _ base; rfl
  | cons hd tl ih =>
    obtain ⟨a, b⟩ := hd
    intro h base
    have hka : (k == a) = false := by
      cases hq : (k == a) with
      | true => simp [List.lookup, hq] at h
      | false => rfl
    have hne : k ≠ a := by
      intro hc
      rw [hc] at hka
      simp at hka
    have ht : tl.lookup k = none := by simpa [List.lookup, hka] using h
    show (spreadAfter (setField base a b) tl).lookup k = base.lookup k
    rw [ih ht (setField base a b)]
    exact lookup_setField_ne base a k b hne

theorem isSome_lookup_setField (l : List (String × Json)) (k k' : String) (v : Json)
    (h : (l.lookup k).isSome = true) :
    ((setField l k' v).lookup k).isSome = true := by
  by_cases hkk : k = k'
  · subst hkk
    rw [lookup_setField_self]
    rfl
  · rw [lookup_setField_ne l k' k v hkk]
    exact h

theorem isSome_lookup_spreadAfter (o : List (String × Json)) (k : String) :
    ∀ base, (base.lookup k).isSome = true →
      ((spreadAfter base o).lookup k).isSome = true := by
  induction o with
  | nil => intro base h; exact h
  | cons hd tl ih =>
    intro base h
    exact ih (setField base hd.1 hd.2) (isSome_lookup_setField base k hd.1 hd.2 h)

theorem occ_setField (l : List (String × Json)) (k' : String) (v' : Json)
    (k : String) (v : Json)
    (hl : ∀ p ∈ l, p.1 = k → p.2 = v)
    (hkv : k' = k → v' = v) :
    ∀ p ∈ setField l k' v', p.1 = k → p.2 = v := by
  intro p hp hpk
  unfold setField at hp
  split at hp
  · rcases List.mem_map.mp hp with ⟨q, hq, hfq⟩
    by_cases hqk : (q.1 == k') = true
    · rw [if_pos hqk] at hfq
      rw [← hfq] at hpk ⊢
      exact hkv hpk
    · rw [if_neg hqk] at hfq
      rw [← hfq] at hpk ⊢
      exact hl q hq hpk
  · rcases List.mem_append.mp hp with hq | hq
    · exact hl p hq hpk
    · rcases List.mem_singleton.mp hq with rfl
      exact hkv hpk

theorem occ_spreadAfter (o : List (String × Json)) (k : String) (v : Json) :
    ∀ base, (∀ p ∈ base, p.1 = k → p.2 = v) → (∀ p ∈ o, p.1 = k → p.2 = v) →
      ∀ p ∈ spreadAfter base o, p.1 = k → p.2 = v := by
  induction o with
  | nil => intro base hb _; exact hb
  | cons hd tl ih =>
    intro base hb ho
    exact ih (setField base hd.1 hd.2)
      (occ_setField base hd.1 hd.2 k v hb
        (fun hk => ho hd (List.mem_cons_self hd tl) hk))
      (fun p hp => ho p (List.mem_cons_of_mem hd hp))

theorem lookup_spreadAfter_uniq (o : List (String × Json)) (k : String) (v : Json) :
    (∀ p ∈ o, p.1 = k → p.2 = v) → (o.lookup k).isSome = true →
      ∀ base, (spreadAfter base o).lookup k = some v := by
  induction o with
  | nil => intro _ hsome _; simp at hsome
  | cons hd tl ih =>
    obtain ⟨a, b⟩ := hd
    intro ho hsome base
    by_cases hak : (k == a) = true
    · have ha : a = k := (beq_iff_eq.mp hak).symm
      have hb : b = v := ho (a, b) (List.mem_cons_self _ _) ha
      cases ht : (tl.lookup k).isSome with
      | true =>
        exact ih (fun p hp => ho p (List.mem_cons_of_mem _ hp)) ht (setField base a b)
      | false =>
        have hnone : tl.lookup k = none := by
          cases hq : tl.lookup k with
          | none => rfl
          | some w => rw [hq] at ht; simp at ht
        show (spreadAfter (setField base a b) tl).lookup k = some v
        rw [lookup_spreadAfter_none tl k hnone (setField base a b)]
        rw [ha, hb]
        exact lookup_setField_self base k v
    · have ht : (tl.lookup k).isSome = true := by
        simpa [List.lookup, hak] using hsome
      exact ih (fun p hp => ho p (List.mem_cons_of_mem _ hp)) ht (setField base a b)

theorem createEvidenceHandler_spec (db : DbState) (body : List (String × Json))
    (now : Json)
    (ht : jsTruthy (body.lookup "type") = true)
    (hd : jsTruthy (body.lookup "description") = true)
    (hl : jsTruthy (body.lookup "location") = true)
    (he : body.lookup "evidenceNumber" = none)
    (hid : body.lookup "_id" = none) :
    (createEvidenceHandler db body now).1.status = 201 ∧
    (respEvidenceField (createEvidenceHandler db body now).1 "id").isSome = true ∧
    (body.lookup "id" = none →
      respEvidenceField (createEvidenceHandler db body now).1 "id"
        = some (.str (genOid db.nextOid))) ∧
    respEvidenceField (createEvidenceHandler db body now).1 "evidenceNumber"
      = some (.str ("EV-" ++ padStart (Nat.repr (db.docs.length + 1)) 6 '0')) ∧
    (createEvidenceHandler db body now).2.docs.length = db.docs.length + 1 ∧
    (createEvidenceHandler db body now).2.nextOid = db.nextOid + 1 := by
  set ed := setField body "collectedBy"
    (if jsTruthy (body.lookup "collectedBy") = true then (body.lookup "collectedBy").getD .null
     else .str "Unknown Officer") with hed
  have h1 : jsFalsy (ed.lookup "type") = false := by
    rw [hed, lookup_setField_ne _ _ _ _ (by decide)]
    exact jsTruthy_false _ ht
  have h2 : jsFalsy (ed.lookup "description") = false := by
    rw [hed, lookup_setField_ne _ _ _ _ (by decide)]
    exact jsTruthy_false _ hd
  have h3 : jsFalsy (ed.lookup "location") = false := by
    rw [hed, lookup_setField_ne _ _ _ _ (by decide)]
    exact jsTruthy_false _ hl
  have h4 : ed.lookup "evidenceNumber" = none := by
    rw [hed, lookup_setField_ne _ _ _ _ (by decide)]
    exact he
  have h5 : ed.lookup "_id" = none := by
    rw [hed, lookup_setField_ne _ _ _ _ (by decide)]
    exact hid
  set d2 := setField (setField (setField ed "evidenceNumber"
      (Json.str ("EV-" ++ padStart (Nat.repr (db.docs.length + 1)) 6 '0')))
      "createdAt" now) "updatedAt" now with hd2
  have h6 : d2.lookup "_id" = none := by
    rw [hd2, lookup_setField_ne _ _ _ _ (by decide), lookup_setField_ne _ _ _ _ (by decide),
      lookup_setField_ne _ _ _ _ (by decide)]
    exact h5
  have hcr : EvidenceCRUD.create db ed now
      = .ok (⟨db.docs ++ [(Json.oid (genOid db.nextOid), d2)], db.nextOid + 1⟩,
          spreadAfter [("_id", Json.oid (genOid db.nextOid))] d2) := by
    unfold EvidenceCRUD.create
    rw [h4]
    simp only [jsFalsy_none, reduceIte, ← hd2, h6]
  have h7 : (spreadAfter [("_id", Json.oid (genOid db.nextOid))] d2).lookup "_id"
      = some (Json.oid (genOid db.nextOid)) := by
    rw [lookup_spreadAfter_none d2 "_id" h6]
    simp [List.lookup]
  have h8 : transformEvidence (spreadAfter [("_id", Json.oid (genOid db.nextOid))] d2)
      = some (spreadAfter [("id", Json.str (genOid db.nextOid))]
          (spreadAfter [("_id", Json.oid (genOid db.nextOid))] d2)) := by
    unfold transformEvidence
    rw [h7]
    rfl
  have hch : createEvidenceHandler db body now
      = (⟨201, .json (.obj [("success", .bool true),
          ("evidence", .obj (spreadAfter [("id", Json.str (genOid db.nextOid))]
            (spreadAfter [("_id", Json.oid (genOid db.nextOid))] d2))),
          ("message", .str "Evidence created successfully")])⟩,
        ⟨db.docs ++ [(Json.oid (genOid db.nextOid), d2)], db.nextOid + 1⟩) := by
    simp only [createEvidenceHandler]
    rw [← hed, h1, h2, h3]
    simp only [Bool.or_self, Bool.false_eq_true, reduceIte]
    rw [hcr]
    simp only [h8]
  have hEocc : ∀ p ∈ spreadAfter [("_id", Json.oid (genOid db.nextOid))] d2,
      p.1 = "evidenceNumber"
        → p.2 = Json.str ("EV-" ++ padStart (Nat.repr (db.docs.length + 1)) 6 '0') := by
    refine occ_spreadAfter d2 _ _ _ ?_ ?_
    · intro p hp hpk
      rcases List.mem_singleton.mp hp with rfl
      simp at hpk
    · rw [hd2]
      refine occ_setField _ _ _ _ _ ?_ (fun hc => absurd hc (by decide))
      refine occ_setField _ _ _ _ _ ?_ (fun hc => absurd hc (by decide))
      refine occ_setField _ _ _ _ _ ?_ (fun _ => rfl)
      intro p hp hpk
      exact absurd hpk (keys_ne_of_lookup_none ed "evidenceNumber" h4 p hp)
  have hd2ev : d2.lookup "evidenceNumber"
      = some (Json.str ("EV-" ++ padStart (Nat.repr (db.docs.length + 1)) 6 '0')) := by
    rw [hd2, lookup_setField_ne _ _ _ _ (by decide), lookup_setField_ne _ _ _ _ (by decide),
      lookup_setField_self]
  have hEev : (spreadAfter [("_id", Json.oid (genOid db.nextOid))] d2).lookup "evidenceNumber"
      = some (Json.str ("EV-" ++ padStart (Nat.repr (db.docs.length + 1)) 6 '0')) := by
    refine lookup_spreadAfter_uniq d2 _ _ ?_ ?_ _
    · rw [hd2]
      refine occ_setField _ _ _ _ _ ?_ (fun hc => absurd hc (by decide))
      refine occ_setField _ _ _ _ _ ?_ (fun hc => absurd hc (by decide))
      refine occ_setField _ _ _ _ _ ?_ (fun _ => rfl)
      intro p hp hpk
      exact absurd hpk (keys_ne_of_lookup_none ed "evidenceNumber" h4 p hp)
    · rw [hd2ev]
      rfl
  refine ⟨by rw [hch], ?_, ?_, ?_, ?_, by rw [hch]⟩
  · rw [hch]
    simp only [respEvidenceField, List.lookup,
      show ("evidence" == "success") = false from by decide, beq_self_eq_true]
    exact isSome_lookup_spreadAfter _ "id" _ rfl
  · intro hid2
    have h9 : d2.lookup "id" = none := by
      rw [hd2, lookup_setField_ne _ _ _ _ (by decide), lookup_setField_ne _ _ _ _ (by decide),
        lookup_setField_ne _ _ _ _ (by decide), hed, lookup_setField_ne _ _ _ _ (by decide)]
      exact hid2
    have h10 : (spreadAfter [("_id", Json.oid (genOid db.nextOid))] d2).lookup "id"
        = none := by
      rw [lookup_spreadAfter_none d2 "id" h9]
      rfl
    rw [hch]
    simp only [respEvidenceField, List.lookup,
      show ("evidence" == "success") = false from by decide, beq_self_eq_true]
    rw [lookup_spreadAfter_none _ "id" h10]
    rfl
  · rw [hch]
    simp only [respEvidenceField, List.lookup,
      show ("evidence" == "success") = false from by decide, beq_self_eq_true]
    refine lookup_spreadAfter_uniq _ _ _ hEocc ?_ _
    rw [hEev]
    rfl
  · rw [hch]
    simp
  
theorem dispatch_append_skip (xs ys : List Route) (m : Method) (p : String)
    (body : List (String × Json)) (now : Json) (db : DbState)
    (h : ∀ r ∈ xs, routeMatches r m p = false) :
    dispatch (xs ++ ys) m p body now db = dispatch ys m p body now db := by
  induction xs with
  | nil => rfl
  | cons r rest ih =>
    rw [List.cons_append]
    simp only [dispatch, h r (List.mem_cons_self r rest), Bool.false_eq_true, reduceIte]
    exact ih fun r2 h2 => h r2 (List.mem_cons_of_mem r h2)

/-- Claim C3 (amended): a `POST /api/evidence` whose body has truthy
`type`, `description` and `location`, no `evidenceNumber` and no
client-supplied `_id` is routed to the create handler and answered 201,
with an `id` field (equal to the fresh ObjectId's hex string whenever
the body carries no `id` field of its own — the JS spread lets a body
`id` override the generated one) and an `evidenceNumber` equal to `EV-`
followed by the document count plus one left-padded with zeros to 6
digits (hence matching the unanchored pattern `EV-` plus six digits);
an immediate second such creation uses the count plus two, so its
numeric suffix is one greater.  A body carrying `_id` instead hits the
duplicate-key 409 on an identical second creation (see the
counterexample). -/
theorem evidence_create_numbering (cfg : Config) (db : DbState)
    (body : List (String × Json)) (now : Json)
    (hconn : mongoConnected cfg = true)
    (hev : cfg.evidenceRoutesLoads = true)
    (hthrow : cfg.regEvidenceThrows = false)
    (ht : jsTruthy (body.lookup "type") = true)
    (hd : jsTruthy (body.lookup "description") = true)
    (hl : jsTruthy (body.lookup "location") = true)
    (he : body.lookup "evidenceNumber" = none)
    (hid : body.lookup "_id" = none) :
    dispatch (appRoutes cfg) .post "/api/evidence" body now db
      = .responded (createEvidenceHandler db body now).1
          (createEvidenceHandler db body now).2 ∧
    (createEvidenceHandler db body now).1.status = 201 ∧
    (respEvidenceField (createEvidenceHandler db body now).1 "id").isSome = true ∧
    (body.lookup "id" = none →
      respEvidenceField (createEvidenceHandler db body now).1 "id"
        = some (.str (genOid db.nextOid))) ∧
    respEvidenceField (createEvidenceHandler db body now).1 "evidenceNumber"
      = some (.str ("EV-" ++ padStart (Nat.repr (db.docs.length + 1)) 6 '0')) ∧
    matchesEVPattern ("EV-" ++ padStart (Nat.repr (db.docs.length + 1)) 6 '0') = true ∧
    (createEvidenceHandler (createEvidenceHandler db body now).2 body now).1.status = 201 ∧
    respEvidenceField
        (createEvidenceHandler (createEvidenceHandler db body now).2 body now).1
        "evidenceNumber"
      = some (.str ("EV-" ++ padStart (Nat.repr (db.docs.length + 2)) 6 '0')) ∧
    matchesEVPattern ("EV-" ++ padStart (Nat.repr (db.docs.length + 2)) 6 '0') = true := by
  obtain ⟨s1, sis, sid, sev, slen, snext⟩ :=
    createEvidenceHandler_spec db body now ht hd hl he hid
  obtain ⟨t1, tis, tid, tev, tlen, tnext⟩ :=
    createEvidenceHandler_spec (createEvidenceHandler db body now).2 body now
      ht hd hl he hid
  refine ⟨?_, s1, sis, sid, sev, matchesEVPattern_evnum _, t1, ?_,
    matchesEVPattern_evnum _⟩
  · simp only [appRoutes, hconn, hev, hthrow, Bool.true_and, Bool.not_false, Bool.and_true,
      if_true, List.append_assoc]
    rw [dispatch_append_skip _ _ _ _ _ _ _ (by
      rintro r hr
      rcases List.mem_singleton.mp hr with rfl
      rfl)]
    rw [dispatch_append_skip _ _ _ _ _ _ _ (by
      intro r hr
      split at hr
      · rcases List.mem_singleton.mp hr with rfl; rfl
      · cases hr)]
    rw [show evidenceRouteList ++ ((if cfg.custodialRoutesLoads && !cfg.regCustodialThrows
          then [Route.feature "custodial"] else [])
        ++ ((if cfg.apiRoutesLoads then [Route.feature "additional"] else [])
        ++ ([Route.uploadsStatic cfg.uploadsFiles]
        ++ ([Route.health true] ++ ([]
        ++ frontendRoutes cfg)))))
      = [Route.evidenceList, Route.evidenceGet] ++ (Route.evidenceCreate :: Route.evidenceUpdate
          :: Route.evidenceDelete
          :: ((if cfg.custodialRoutesLoads && !cfg.regCustodialThrows
              then [Route.feature "custodial"] else [])
          ++ ((if cfg.apiRoutesLoads then [Route.feature "additional"] else [])
          ++ ([Route.uploadsStatic cfg.uploadsFiles]
          ++ ([Route.health true] ++ ([]
          ++ frontendRoutes cfg)))))) from by simp [evidenceRouteList]]
    rw [dispatch_append_skip _ _ _ _ _ _ _ (by
      intro r hr
      rcases List.mem_cons.mp hr with rfl | hr2
      · rfl
      · rcases List.mem_singleton.mp hr2 with rfl; rfl)]
    simp only [dispatch, show routeMatches Route.evidenceCreate Method.post "/api/evidence"
        = true from by decide, if_true, routeRun]
  · rwa [slen] at tev

theorem pathStarts_api_not_uploads (p : String) (h : pathStarts "/api/" p = true) :
    pathStarts "/uploads/" p = false := by
  cases hu : pathStarts "/uploads/" p with
  | false => rfl
  | true =>
    exfalso
    unfold pathStarts at h hu
    have h1 : "/api/".data <+: p.data := List.isPrefixOf_iff_prefix.mp h
    have h2 : "/uploads/".data <+: p.data := List.isPrefixOf_iff_prefix.mp hu
    rcases List.prefix_or_prefix_of_prefix h1 h2 with h3 | h3
    · exact absurd h3 (by decide)
    · exact absurd h3 (by decide)

theorem isPrefixOf_append_self (l t : List Char) : l.isPrefixOf (l ++ t) = true :=
  List.isPrefixOf_iff_prefix.mpr (List.prefix_append l t)

theorem objectid_data_facts (id : String) (hvalid : isValidObjectId id = true) :
    id.data.length = 24 ∧ ∀ c ∈ id.data, isHexChar c = true := by
  unfold isValidObjectId at hvalid
  simp only [Bool.and_eq_true] at hvalid
  obtain ⟨hlen, hall⟩ := hvalid
  refine ⟨?_, ?_⟩
  · show id.length = 24
    exact beq_iff_eq.mp hlen
  · intro c hc
    exact List.all_eq_true.mp hall c hc

theorem evidenceIdPath_append (id : String) (hvalid : isValidObjectId id = true) :
    evidenceIdPath ("/api/evidence/" ++ id) = true := by
  obtain ⟨hlen, hhex⟩ := objectid_data_facts id hvalid
  have hdata : ("/api/evidence/" ++ id).data = "/api/evidence/".data ++ id.data := rfl
  unfold evidenceIdPath pathStarts
  rw [hdata, isPrefixOf_append_self]
  rw [show (14 : Nat) = "/api/evidence/".data.length from rfl, List.drop_left]
  have hne : id.data.isEmpty = false := by
    cases hid : id.data with
    | nil => rw [hid] at hlen; simp at hlen
    | cons a t => rfl
  have hns : id.data.contains '/' = false := by
    cases hc : id.data.contains '/' with
    | false => rfl
    | true =>
      exfalso
      have hm : '/' ∈ id.data := by
        rcases List.contains_iff_exists_mem_beq.mp hc with ⟨a, ha, hba⟩
        rwa [show a = '/' from (beq_iff_eq.mp hba).symm] at ha
      exact absurd (hhex '/' hm) (by decide)
  rw [hne, hns]
  rfl

theorem extractId_append (id : String) :
    extractId ("/api/evidence/" ++ id) = id := by
  unfold extractId
  rw [show ("/api/evidence/" ++ id).data = "/api/evidence/".data ++ id.data from rfl,
    show (14 : Nat) = "/api/evidence/".data.length from rfl, List.drop_left]

/-- Claim C9: an id that is not a valid ObjectId (e.g. not 24 hex
characters) makes `new ObjectId(id)` throw inside the handler, so GET,
PUT and DELETE on `/api/evidence/:id` answer 500 with the generic error
body of each route, not 404. -/
theorem invalid_objectid_500 (db : DbState) (id : String)
    (body : List (String × Json)) (now : Json)
    (h : isValidObjectId id = false) :
    getEvidenceByIdHandler db id
      = ⟨500, .json (.obj [("error", .str "Failed to fetch evidence")])⟩ ∧
    updateEvidenceHandler db id body now
      = (⟨500, .json (.obj [("error", .str "Failed to update evidence")])⟩, db) ∧
    deleteEvidenceHandler db id
      = (⟨500, .json (.obj [("error", .str "Failed to delete evidence")])⟩, db) := by
  have hp : parseObjectId id = none := by
    unfold parseObjectId
    rw [h]
    rfl
  refine ⟨?_, ?_, ?_⟩
  · unfold getEvidenceByIdHandler EvidenceCRUD.findById
    rw [hp]
  · unfold updateEvidenceHandler EvidenceCRUD.update
    rw [hp]
  · unfold deleteEvidenceHandler EvidenceCRUD.delete
    rw [hp]

/-- Witness for C9 at the concrete id `xyz`. -/
theorem invalid_objectid_500_witness :
    getEvidenceByIdHandler ⟨[], 0⟩ "xyz"
      = ⟨500, .json (.obj [("error", .str "Failed to fetch evidence")])⟩ ∧
    updateEvidenceHandler ⟨[], 0⟩ "xyz" [] .null
      = (⟨500, .json (.obj [("error", .str "Failed to update evidence")])⟩, ⟨[], 0⟩) ∧
    deleteEvidenceHandler ⟨[], 0⟩ "xyz"
      = (⟨500, .json (.obj [("error", .str "Failed to delete evidence")])⟩, ⟨[], 0⟩) :=
  invalid_objectid_500 ⟨[], 0⟩ "xyz" [] .null (by decide)

/-- Claim C7 (amended): for every id that IS a valid ObjectId but
identifies no existing evidence document, `GET /api/evidence/:id`
answers 404 with body `error: Evidence not found` (ids that are not
valid ObjectIds instead make the handler throw and answer 500, see the
counterexample). -/
theorem evidence_getById_404 (cfg : Config) (db : DbState) (id : String)
    (body : List (String × Json)) (now : Json)
    (hconn : mongoConnected cfg = true)
    (hev : cfg.evidenceRoutesLoads = true)
    (hthrow : cfg.regEvidenceThrows = false)
    (hvalid : isValidObjectId id = true)
    (hnf : EvidenceCRUD.findById db id = .ok none) :
    dispatch (appRoutes cfg) .get ("/api/evidence/" ++ id) body now db
      = .responded ⟨404, .json (.obj [("error", .str "Evidence not found")])⟩ db := by
  have hup : pathStarts "/uploads/" ("/api/evidence/" ++ id) = false :=
    pathStarts_api_not_uploads _ (by
      unfold pathStarts
      rw [show ("/api/evidence/" ++ id).data = "/api/".data ++ ("evidence/".data ++ id.data)
        from rfl]
      exact isPrefixOf_append_self _ _)
  have hlist : (("/api/evidence/" ++ id) == "/api/evidence") = false := by
    cases hq : ("/api/evidence/" ++ id) == "/api/evidence" with
    | false => rfl
    | true =>
      exfalso
      have heq := beq_iff_eq.mp hq
      have hlen := congrArg (fun s => s.data.length) heq
      simp only [show ("/api/evidence/" ++ id).data
        = "/api/evidence/".data ++ id.data from rfl, List.length_append,
        List.length_cons, List.length_nil] at hlen
      omega
  have hhealth : (("/api/evidence/" ++ id) == "/api/health") = false := by
    cases hq : ("/api/evidence/" ++ id) == "/api/health" with
    | false => rfl
    | true =>
      exfalso
      have heq := beq_iff_eq.mp hq
      have hlen := congrArg (fun s => s.data.length) heq
      obtain ⟨h24, _⟩ := objectid_data_facts id hvalid
      simp only [show ("/api/evidence/" ++ id).data
        = "/api/evidence/".data ++ id.data from rfl, List.length_append, h24] at hlen
      simp at hlen
  simp only [appRoutes, hconn, hev, hthrow, Bool.true_and, Bool.not_false, Bool.and_true,
    if_true, List.append_assoc]
  rw [dispatch_append_skip _ _ _ _ _ _ _ (by
    rintro r hr
    rcases List.mem_singleton.mp hr with rfl
    simp [routeMatches, hup])]
  rw [dispatch_append_skip _ _ _ _ _ _ _ (by
    intro r hr
    split at hr
    · rcases List.mem_singleton.mp hr with rfl; rfl
    · cases hr)]
  rw [show evidenceRouteList ++ ((if cfg.custodialRoutesLoads && !cfg.regCustodialThrows
        then [Route.feature "custodial"] else [])
      ++ ((if cfg.apiRoutesLoads then [Route.feature "additional"] else [])
      ++ ([Route.uploadsStatic cfg.uploadsFiles]
      ++ ([Route.health true] ++ ([] ++ frontendRoutes cfg)))))
    = [Route.evidenceList] ++ (Route.evidenceGet :: Route.evidenceCreate
        :: Route.evidenceUpdate :: Route.evidenceDelete
        :: ((if cfg.custodialRoutesLoads && !cfg.regCustodialThrows
            then [Route.feature "custodial"] else [])
        ++ ((if cfg.apiRoutesLoads then [Route.feature "additional"] else [])
        ++ ([Route.uploadsStatic cfg.uploadsFiles]
        ++ ([Route.health true] ++ ([] ++ frontendRoutes cfg))))))
      from by simp [evidenceRouteList]]
  rw [dispatch_append_skip _ _ _ _ _ _ _ (by
    rintro r hr
    rcases List.mem_singleton.mp hr with rfl
    simp [routeMatches, hlist])]
  simp only [dispatch, routeMatches,
    show (Method.get == Method.get) = true from rfl,
    evidenceIdPath_append id hvalid, Bool.and_self, Bool.true_and, if_true, routeRun,
    extractId_append]
  unfold getEvidenceByIdHandler
  rw [hnf]

/-- Witness for the amended C7: the all-zero ObjectId on an empty
collection. -/
theorem evidence_getById_404_witness :
    dispatch (appRoutes (Config.mk true false true false false false false false
        true false false false false false false false none [] []))
      .get ("/api/evidence/" ++ "000000000000000000000000") [] .null ⟨[], 0⟩
      = .responded ⟨404, .json (.obj [("error", .str "Evidence not found")])⟩ ⟨[], 0⟩ :=
  evidence_getById_404 _ ⟨[], 0⟩ "000000000000000000000000" [] .null rfl rfl rfl
    (by decide) rfl

/-- Counterexample to C7 as stated: the id `xyz` identifies no existing
document (the collection is empty), yet the response is the generic 500,
not 404 with `Evidence not found`. -/
theorem evidence_getById_counterexample :
    getEvidenceByIdHandler ⟨[], 0⟩ "xyz"
      = ⟨500, .json (.obj [("error", .str "Failed to fetch evidence")])⟩ ∧
    getEvidenceByIdHandler ⟨[], 0⟩ "xyz"
      ≠ ⟨404, .json (.obj [("error", .str "Evidence not found")])⟩ := by
  refine ⟨rfl, ?_⟩
  intro h
  have h500 : getEvidenceByIdHandler ⟨[], 0⟩ "xyz"
      = ⟨500, .json (.obj [("error", .str "Failed to fetch evidence")])⟩ := rfl
  rw [h500] at h
  have := congrArg Response.status h
  simp at this

/-- A connected baseline configuration with evidence routes loaded. -/
def cfgConn : Config :=
  Config.mk true false true false false false false false
    true false false false false false false false none [] []

/-- Witness for C3: on an empty collection, the first evidence number
and the generated id. -/
theorem evidence_create_numbering_witness :
    (createEvidenceHandler ⟨[], 0⟩ [("type", Json.str "firearm"),
        ("description", Json.str "recovered"), ("location", Json.str "locker")]
        .null).1.status = 201 ∧
    respEvidenceField (createEvidenceHandler ⟨[], 0⟩ [("type", Json.str "firearm"),
        ("description", Json.str "recovered"), ("location", Json.str "locker")]
        .null).1 "evidenceNumber"
      = some (.str ("EV-" ++ padStart (Nat.repr ((⟨[], 0⟩ : DbState).docs.length + 1)) 6 '0')) ∧
    respEvidenceField (createEvidenceHandler ⟨[], 0⟩ [("type", Json.str "firearm"),
        ("description", Json.str "recovered"), ("location", Json.str "locker")]
        .null).1 "id"
      = some (.str (genOid (⟨[], 0⟩ : DbState).nextOid)) := by
  have h := evidence_create_numbering cfgConn ⟨[], 0⟩
    [("type", Json.str "firearm"), ("description", Json.str "recovered"),
     ("location", Json.str "locker")] .null rfl rfl rfl
    (by decide) (by decide) (by decide) rfl rfl
  exact ⟨h.2.1, h.2.2.2.2.1, h.2.2.2.1 rfl⟩

/-- A creation request body that also carries a client-supplied `_id`. -/
def bodyDup : List (String × Json) :=
  [("type", Json.str "firearm"), ("description", Json.str "d"),
   ("location", Json.str "l"), ("_id", Json.str "dup")]

/-- Counterexample to C3 as stated: a body that also carries a
client-supplied `_id` is inserted under that `_id` (201), and the
immediate second identical creation hits the duplicate-key error and is
answered 409 with no evidence object at all — its numeric suffix is not
one greater. -/
theorem evidence_create_counterexample :
    (createEvidenceHandler ⟨[], 0⟩ bodyDup .null).1.status = 201 ∧
    (createEvidenceHandler (createEvidenceHandler ⟨[], 0⟩ bodyDup .null).2
        bodyDup .null).1.status = 409 ∧
    (createEvidenceHandler (createEvidenceHandler ⟨[], 0⟩ bodyDup .null).2
        bodyDup .null).1.status ≠ 201 ∧
    respEvidenceField (createEvidenceHandler (createEvidenceHandler ⟨[], 0⟩ bodyDup
        .null).2 bodyDup .null).1 "evidenceNumber" = none := by
  have h2 : (createEvidenceHandler (createEvidenceHandler ⟨[], 0⟩ bodyDup .null).2
      bodyDup .null).1.status = 409 := rfl
  refine ⟨rfl, h2, ?_, rfl⟩
  rw [h2]
  decide

theorem dispatch_all_no_match (l : List Route) (m : Method) (p : String)
    (body : List (String × Json)) (now : Json) (db : DbState)
    (h : ∀ r ∈ l, routeMatches r m p = false) :
    dispatch l m p body now db = .notFound := by
  induction l with
  | nil => rfl
  | cons r rest ih =>
    simp only [dispatch, h r (List.mem_cons_self r rest), Bool.false_eq_true, reduceIte]
    exact ih fun r2 h2 => h r2 (List.mem_cons_of_mem r h2)

theorem apiCatchAll_not_frontend (cfg : Config) :
    Route.apiCatchAll ∉ frontendRoutes cfg := by
  intro h
  unfold frontendRoutes at h
  split_ifs at h
  · rcases List.mem_cons.mp h with h2 | h2
    · simp at h2
    · rcases List.mem_singleton.mp h2 with h3
      simp at h3
  · rcases List.mem_singleton.mp h with h2
    simp at h2
  · rcases List.mem_singleton.mp h with h2
    simp at h2
  · rcases List.mem_singleton.mp h with h2
    simp at h2

theorem frontend_no_match_nonget (cfg : Config) (m : Method) (p : String)
    (hmg : (m == Method.get) = false) :
    ∀ r ∈ frontendRoutes cfg, routeMatches r m p = false := by
  intro r hr
  unfold frontendRoutes at hr
  split_ifs at hr
  · rcases List.mem_cons.mp hr with rfl | hr2
    · simp [routeMatches, hmg]
    · rcases List.mem_singleton.mp hr2 with rfl
      simp [routeMatches, hmg]
  · rcases List.mem_singleton.mp hr with rfl
    rfl
  · rcases List.mem_singleton.mp hr with rfl
    simp [routeMatches, hmg]
  · rcases List.mem_singleton.mp hr with rfl
    simp [routeMatches, hmg]

/-- Claim C1 (amended): the `/api/*` catch-all is registered iff the
database is not connected; being an `app.get` route it answers only GET
requests: a GET under `/api` matching no earlier route gets the fixed
503 service-unavailable body, while a non-GET request under `/api`
matching nothing receives the framework's default 404, whether
connected or not. -/
theorem api_catchall_spec (cfg : Config) (p : String) (m : Method)
    (body : List (String × Json)) (now : Json) (db : DbState) :
    (Route.apiCatchAll ∈ appRoutes cfg ↔ mongoConnected cfg = false) ∧
    (mongoConnected cfg = false → pathStarts "/api/" p = true → p ≠ "/api/health" →
      dispatch (appRoutes cfg) .get p body now db
        = .responded ⟨503, .json serviceUnavailableBody⟩ db) ∧
    (mongoConnected cfg = false → m ≠ .get → pathStarts "/api/" p = true →
      dispatch (appRoutes cfg) m p body now db = .notFound) ∧
    (mongoConnected cfg = true → m ≠ .get → pathStarts "/api/" p = true →
      p ≠ "/api/evidence" → evidenceIdPath p = false →
      dispatch (appRoutes cfg) m p body now db = .notFound) := by
  refine ⟨?_, ?_, ?_, ?_⟩
  · constructor
    · intro hmem
      cases hc : mongoConnected cfg with
      | false => rfl
      | true =>
        exfalso
        simp only [appRoutes, hc, evidenceRouteList, Bool.true_and, reduceIte,
          List.nil_append, List.append_assoc, List.mem_append, List.mem_cons,
          List.mem_singleton, List.not_mem_nil, List.mem_ite_nil_right, or_false,
          false_or] at hmem
        rcases hmem with h | h | h | h | h | h | h | h
        · simp at h
        · rcases h with ⟨-, h⟩; simp at h
        · rcases h with ⟨-, h⟩
          rcases h with h | h | h | h | h <;> simp at h
        · rcases h with ⟨-, h⟩; simp at h
        · rcases h with ⟨-, h⟩; simp at h
        · simp at h
        · simp at h
        · exact apiCatchAll_not_frontend cfg h
    · intro hc
      simp [appRoutes, hc]
  · intro hc hp hh
    have hup : pathStarts "/uploads/" p = false := pathStarts_api_not_uploads p hp
    have hhb : (p == "/api/health") = false := beq_eq_false_iff_ne.mpr hh
    simp only [appRoutes, hc, Bool.false_and, Bool.false_eq_true, reduceIte,
      List.nil_append, List.append_assoc]
    rw [dispatch_append_skip _ _ _ _ _ _ _ (by
      rintro r hr
      rcases List.mem_singleton.mp hr with rfl
      simp [routeMatches, hup])]
    rw [dispatch_append_skip _ _ _ _ _ _ _ (by
      intro r hr
      split at hr
      · rcases List.mem_singleton.mp hr with rfl; rfl
      · cases hr)]
    rw [dispatch_append_skip _ _ _ _ _ _ _ (by
      rintro r hr
      rcases List.mem_singleton.mp hr with rfl
      simp [routeMatches, hup])]
    rw [dispatch_append_skip _ _ _ _ _ _ _ (by
      rintro r hr
      rcases List.mem_singleton.mp hr with rfl
      simp [routeMatches, hhb])]
    simp only [List.cons_append, dispatch, routeMatches,
      show (Method.get == Method.get) = true from rfl, hp, Bool.and_self, Bool.true_and,
      if_true, routeRun]
  · intro hc hm hp
    have hmg : (m == Method.get) = false := beq_eq_false_iff_ne.mpr hm
    apply dispatch_all_no_match
    intro r hr
    simp only [appRoutes, hc, Bool.false_and, Bool.false_eq_true,
      reduceIte, List.nil_append, List.append_assoc, List.mem_append, List.mem_cons,
      List.mem_singleton, List.not_mem_nil, List.mem_ite_nil_right, or_false,
      false_or] at hr
    rcases hr with h | h | h | h | h | h
    · rw [h]; simp [routeMatches, hmg]
    · rcases h with ⟨-, h⟩; rw [h]; rfl
    · rw [h]; simp [routeMatches, hmg]
    · rw [h]; simp [routeMatches, hmg]
    · rw [h]; simp [routeMatches, hmg]
    · exact frontend_no_match_nonget cfg m p hmg r h
  · intro hc hm hp hne1 hne2
    have hmg : (m == Method.get) = false := beq_eq_false_iff_ne.mpr hm
    have hne1b : (p == "/api/evidence") = false := beq_eq_false_iff_ne.mpr hne1
    apply dispatch_all_no_match
    intro r hr
    simp only [appRoutes, hc, evidenceRouteList, Bool.true_and, reduceIte,
      List.nil_append, List.append_assoc, List.mem_append, List.mem_cons,
      List.mem_singleton, List.not_mem_nil, List.mem_ite_nil_right, or_false,
      false_or] at hr
    rcases hr with h | h | h | h | h | h | h | h
    · rw [h]; simp [routeMatches, hmg]
    · rcases h with ⟨-, h⟩; rw [h]; rfl
    · rcases h with ⟨-, h⟩
      rcases h with h | h | h | h | h
      · rw [h]; simp [routeMatches, hmg]
      · rw [h]; simp [routeMatches, hmg]
      · rw [h]; simp [routeMatches, hne1b]
      · rw [h]; simp [routeMatches, hne2]
      · rw [h]; simp [routeMatches, hne2]
    · rcases h with ⟨-, h⟩; rw [h]; rfl
    · rcases h with ⟨-, h⟩; rw [h]; rfl
    · rw [h]; simp [routeMatches, hmg]
    · rw [h]; simp [routeMatches, hmg]
    · exact frontend_no_match_nonget cfg m p hmg r h

/-- A fully degraded configuration: nothing loads, nothing connects. -/
def cfgDisc : Config :=
  Config.mk false false false false false false false false
    false false false false false false false false none [] []

/-- Counterexample to C1 as stated: with the database disconnected, a
POST to an unmatched API path gets the framework 404, not the 503
catch-all response — the catch-all is an `app.get` route and does not
answer every HTTP method. -/
theorem api_catchall_counterexample :
    dispatch (appRoutes cfgDisc) .post "/api/foo" [] .null ⟨[], 0⟩ = .notFound ∧
    dispatch (appRoutes cfgDisc) .post "/api/foo" [] .null ⟨[], 0⟩
      ≠ .responded ⟨503, .json serviceUnavailableBody⟩ ⟨[], 0⟩ := by
  have h0 : dispatch (appRoutes cfgDisc) .post "/api/foo" [] .null ⟨[], 0⟩
      = .notFound := rfl
  refine ⟨h0, ?_⟩
  intro h
  rw [h0] at h
  exact Outcome.noConfusion h

/-- Witness for the amended C1 at a concrete disconnected configuration. -/
theorem api_catchall_spec_witness :
    Route.apiCatchAll ∈ appRoutes cfgDisc ∧
    dispatch (appRoutes cfgDisc) .get "/api/evidence" [] .null ⟨[], 0⟩
      = .responded ⟨503, .json serviceUnavailableBody⟩ ⟨[], 0⟩ ∧
    dispatch (appRoutes cfgDisc) .put "/api/evidence" [] .null ⟨[], 0⟩ = .notFound :=
  ⟨(api_catchall_spec cfgDisc "/api/evidence" .put [] .null ⟨[], 0⟩).1.mpr rfl,
   (api_catchall_spec cfgDisc "/api/evidence" .get [] .null ⟨[], 0⟩).2.1 rfl
     (by decide) (by decide),
   (api_catchall_spec cfgDisc "/api/evidence" .put [] .null ⟨[], 0⟩).2.2.1 rfl
     (by decide) (by decide)⟩

theorem pathStarts_api_of_api_slash (p : String) (h : pathStarts "/api/" p = true) :
    pathStarts "/api" p = true := by
  unfold pathStarts at h ⊢
  exact List.isPrefixOf_iff_prefix.mpr
    (List.IsPrefix.trans (by decide) (List.isPrefixOf_iff_prefix.mp h))

/-- Claim C10: the production catch-all GET handler sends the built
entry document iff the path does not start with `/api`; on an `/api`
path it neither responds nor delegates, so in production (with the
database connected, hence no 503 catch-all) an unmatched GET under
`/api` hangs with no response at all. -/
theorem production_catchall_spec (cfg : Config) (p : String)
    (body : List (String × Json)) (now : Json) (db : DbState) :
    (cfg.isProduction = true → Route.prodCatchAll ∈ appRoutes cfg) ∧
    (pathStarts "/api" p = false →
      routeRun .prodCatchAll .get p body now db = some (⟨200, .file "index.html"⟩, db)) ∧
    (pathStarts "/api" p = true →
      routeRun .prodCatchAll .get p body now db = none) ∧
    (cfg.isProduction = true → mongoConnected cfg = true →
      pathStarts "/api/" p = true → p ≠ "/api/health" → p ≠ "/api/evidence" →
      evidenceIdPath p = false → p ∉ cfg.buildFiles →
      dispatch (appRoutes cfg) .get p body now db = .hang) := by
  refine ⟨?_, ?_, ?_, ?_⟩
  · intro hprod
    simp [appRoutes, frontendRoutes, hprod]
  · intro h
    simp [routeRun, h]
  · intro h
    simp [routeRun, h]
  · intro hprod hc hp hh hne1 hne2 hbuild
    have hup : pathStarts "/uploads/" p = false := pathStarts_api_not_uploads p hp
    have hapi : pathStarts "/api" p = true := pathStarts_api_of_api_slash p hp
    have hhb : (p == "/api/health") = false := beq_eq_false_iff_ne.mpr hh
    have hne1b : (p == "/api/evidence") = false := beq_eq_false_iff_ne.mpr hne1
    have hcont : cfg.buildFiles.contains p = false := by
      cases hcb : cfg.buildFiles.contains p with
      | false => rfl
      | true =>
        exfalso
        rcases List.contains_iff_exists_mem_beq.mp hcb with ⟨a, ha, hba⟩
        rw [beq_iff_eq.mp hba] at hbuild
        exact hbuild ha
    simp only [appRoutes, frontendRoutes, hprod, hc, reduceIte, List.nil_append,
      List.append_assoc]
    rw [dispatch_append_skip _ _ _ _ _ _ _ (by
      rintro r hr
      rcases List.mem_singleton.mp hr with rfl
      simp [routeMatches, hup])]
    rw [dispatch_append_skip _ _ _ _ _ _ _ (by
      intro r hr
      split at hr
      · rcases List.mem_singleton.mp hr with rfl; rfl
      · cases hr)]
    rw [dispatch_append_skip _ _ _ _ _ _ _ (by
      intro r hr
      split at hr
      · simp only [evidenceRouteList, List.mem_cons, List.mem_singleton,
          List.not_mem_nil, or_false] at hr
        rcases hr with rfl | rfl | rfl | rfl | rfl
        · simp [routeMatches, hne1b]
        · simp [routeMatches, hne2]
        · rfl
        · rfl
        · rfl
      · cases hr)]
    rw [dispatch_append_skip _ _ _ _ _ _ _ (by
      intro r hr
      split at hr
      · rcases List.mem_singleton.mp hr with rfl; rfl
      · cases hr)]
    rw [dispatch_append_skip _ _ _ _ _ _ _ (by
      intro r hr
      split at hr
      · rcases List.mem_singleton.mp hr with rfl; rfl
      · cases hr)]
    rw [dispatch_append_skip _ _ _ _ _ _ _ (by
      rintro r hr
      rcases List.mem_singleton.mp hr with rfl
      simp [routeMatches, hup])]
    rw [dispatch_append_skip _ _ _ _ _ _ _ (by
      rintro r hr
      rcases List.mem_singleton.mp hr with rfl
      simp [routeMatches, hhb])]
    simp only [dispatch, routeMatches, show (Method.get == Method.get) = true from rfl,
      hcont, Bool.true_and, Bool.and_false, Bool.false_eq_true, reduceIte, if_true,
      routeRun, hapi]

/-- A connected production configuration. -/
def cfgProd : Config :=
  Config.mk true false false false false false false false
    true false false false false false false true none [] []

/-- Witness for C10: a production app hangs on an unmatched GET under
the API prefix and serves the entry document elsewhere. -/
theorem production_catchall_spec_witness :
    Route.prodCatchAll ∈ appRoutes cfgProd ∧
    routeRun .prodCatchAll .get "/cases" [] .null ⟨[], 0⟩
      = some (⟨200, .file "index.html"⟩, ⟨[], 0⟩) ∧
    routeRun .prodCatchAll .get "/api/nothing" [] .null ⟨[], 0⟩ = none ∧
    dispatch (appRoutes cfgProd) .get "/api/nothing" [] .null ⟨[], 0⟩ = .hang :=
  ⟨(production_catchall_spec cfgProd "/cases" [] .null ⟨[], 0⟩).1 rfl,
   (production_catchall_spec cfgProd "/cases" [] .null ⟨[], 0⟩).2.1 (by decide),
   (production_catchall_spec cfgProd "/api/nothing" [] .null ⟨[], 0⟩).2.2.1 (by decide),
   (production_catchall_spec cfgProd "/api/nothing" [] .null ⟨[], 0⟩).2.2.2 rfl rfl
     (by decide) (by decide) (by decide) (by decide) (by decide)⟩

/-- Claim C5: exactly one of the three frontend strategies is
registered — production static+catch-all iff in production; the vite dev
middleware iff in development with the bundler loaded and its setup
succeeding; the inline HTML fallback iff in development and the bundler
is absent or its setup throws — and at least one is always present. -/
theorem frontend_strategy_spec (cfg : Config) :
    ((Route.prodCatchAll ∈ appRoutes cfg ∨ Route.buildStatic cfg.buildFiles ∈ appRoutes cfg)
       ↔ cfg.isProduction = true) ∧
    (Route.vite ∈ appRoutes cfg
       ↔ (cfg.isProduction = false ∧ cfg.viteLoads = true ∧ cfg.viteSetupOk = true)) ∧
    ((∃ b, Route.inlineFallback b ∈ appRoutes cfg)
       ↔ (cfg.isProduction = false ∧ (cfg.viteLoads = false ∨ cfg.viteSetupOk = false))) ∧
    (Route.prodCatchAll ∈ appRoutes cfg ∨ Route.vite ∈ appRoutes cfg
       ∨ ∃ b, Route.inlineFallback b ∈ appRoutes cfg) ∧
    (Route.vite ∈ appRoutes cfg → ∀ b, Route.inlineFallback b ∉ appRoutes cfg) ∧
    (Route.prodCatchAll ∈ appRoutes cfg → Route.vite ∉ appRoutes cfg ∧
      ∀ b, Route.inlineFallback b ∉ appRoutes cfg) := by
  cases hprod : cfg.isProduction <;> cases hvl : cfg.viteLoads
    <;> cases hvo : cfg.viteSetupOk
    <;> simp [appRoutes, frontendRoutes, evidenceRouteList, hprod, hvl, hvo]

/-- A development configuration whose vite setup throws. -/
def cfgViteThrow : Config :=
  Config.mk false false false false true false false false
    false false false false false false false false none [] []

/-- Witness for C5: with the bundler loaded but its setup throwing, the
inline fallback is the one registered strategy. -/
theorem frontend_strategy_spec_witness :
    (∃ b, Route.inlineFallback b ∈ appRoutes cfgViteThrow) ∧
    Route.vite ∉ appRoutes cfgViteThrow ∧
    Route.prodCatchAll ∉ appRoutes cfgViteThrow :=
  ⟨(frontend_strategy_spec cfgViteThrow).2.2.1.mpr ⟨rfl, Or.inr rfl⟩,
   fun h => Bool.noConfusion ((frontend_strategy_spec cfgViteThrow).2.1.mp h).2.2,
   fun h => Bool.noConfusion ((frontend_strategy_spec cfgViteThrow).1.mp (Or.inl h))⟩

theorem not_connectAttempt_loadTrace (cfg : Config) (b : Bool) :
    Ev.connectAttempt b ∉ loadTrace cfg := by simp [loadTrace]

theorem not_connectAttempt_regTrace (cfg : Config) (b : Bool) :
    Ev.connectAttempt b ∉ regTrace cfg := by
  intro h
  unfold regTrace at h
  simp at h

theorem not_connectAttempt_seeder (cfg : Config) (b : Bool) :
    Ev.connectAttempt b ∉ seederEvents cfg := by
  intro h
  unfold seederEvents adminEvents at h
  split_ifs at h <;> simp_all

theorem not_connectAttempt_seedTrace (cfg : Config) (b : Bool) :
    Ev.connectAttempt b ∉ seedTrace cfg := by
  intro h
  unfold seedTrace at h
  split_ifs at h
  · exact not_connectAttempt_seeder cfg b h
  · simp at h

theorem not_connectAttempt_listenTrace (cfg : Config) (b : Bool) :
    Ev.connectAttempt b ∉ listenTrace cfg := by
  intro h
  unfold listenTrace at h
  cases he : cfg.bindError <;> rw [he] at h <;> simp at h

theorem not_connectSkipped_regTrace (cfg : Config) :
    Ev.connectSkipped ∉ regTrace cfg := by
  intro h
  unfold regTrace at h
  simp at h

theorem not_connectSkipped_seedTrace (cfg : Config) :
    Ev.connectSkipped ∉ seedTrace cfg := by
  intro h
  unfold seedTrace seederEvents adminEvents at h
  split_ifs at h <;> simp_all

theorem not_connectSkipped_listenTrace (cfg : Config) :
    Ev.connectSkipped ∉ listenTrace cfg := by
  intro h
  unfold listenTrace at h
  cases he : cfg.bindError <;> rw [he] at h <;> simp at h

theorem not_regAttempt_loadTrace (cfg : Config) (f : Feat) (b : Bool) :
    Ev.regAttempt f b ∉ loadTrace cfg := by simp [loadTrace]

theorem not_regAttempt_connectTrace (cfg : Config) (f : Feat) (b : Bool) :
    Ev.regAttempt f b ∉ connectTrace cfg := by
  intro h
  unfold connectTrace at h
  split_ifs at h <;> simp_all

theorem not_regAttempt_seedTrace (cfg : Config) (f : Feat) (b : Bool) :
    Ev.regAttempt f b ∉ seedTrace cfg := by
  intro h
  unfold seedTrace seederEvents adminEvents at h
  split_ifs at h <;> simp_all

theorem not_regAttempt_listenTrace (cfg : Config) (f : Feat) (b : Bool) :
    Ev.regAttempt f b ∉ listenTrace cfg := by
  intro h
  unfold listenTrace at h
  cases he : cfg.bindError <;> rw [he] at h <;> simp at h

theorem not_exitProcess_loadTrace (cfg : Config) (c : Nat) :
    Ev.exitProcess c ∉ loadTrace cfg := by simp [loadTrace]

theorem not_exitProcess_connectTrace (cfg : Config) (c : Nat) :
    Ev.exitProcess c ∉ connectTrace cfg := by
  intro h
  unfold connectTrace at h
  split_ifs at h <;> simp_all

theorem not_exitProcess_regTrace (cfg : Config) (c : Nat) :
    Ev.exitProcess c ∉ regTrace cfg := by
  intro h
  unfold regTrace at h
  simp at h

theorem not_exitProcess_seeder (cfg : Config) (c : Nat) :
    Ev.exitProcess c ∉ seederEvents cfg := by
  intro h
  unfold seederEvents adminEvents at h
  split_ifs at h <;> simp_all

theorem not_exitProcess_seedTrace (cfg : Config) (c : Nat) :
    Ev.exitProcess c ∉ seedTrace cfg := by
  intro h
  unfold seedTrace at h
  split_ifs at h
  · exact not_exitProcess_seeder cfg c h
  · simp at h

theorem not_logPortInUse_loadTrace (cfg : Config) :
    Ev.logPortInUse ∉ loadTrace cfg := by simp [loadTrace]

theorem not_logPortInUse_connectTrace (cfg : Config) :
    Ev.logPortInUse ∉ connectTrace cfg := by
  intro h
  unfold connectTrace at h
  split_ifs at h <;> simp_all

theorem not_logPortInUse_regTrace (cfg : Config) :
    Ev.logPortInUse ∉ regTrace cfg := by
  intro h
  unfold regTrace at h
  simp at h

theorem not_logPortInUse_seedTrace (cfg : Config) :
    Ev.logPortInUse ∉ seedTrace cfg := by
  intro h
  unfold seedTrace seederEvents adminEvents at h
  split_ifs at h <;> simp_all

/-- Claim C4: the connection step is a total function into the flag (no
error escapes it); a missing connector module yields `false` with no
connection attempt anywhere in the run; a rejected call is caught,
recorded as the failed attempt, and yields `false`; and the whole
connection step sits strictly between module loading and route
registration in the startup trace. -/
theorem connection_step_spec (cfg : Config) :
    (cfg.mongoConnLoads = false → mongoConnected cfg = false ∧
      ∀ b, Ev.connectAttempt b ∉ startTrace cfg) ∧
    (cfg.mongoConnLoads = true → cfg.connectOk = false →
      mongoConnected cfg = false ∧ Ev.connectAttempt false ∈ startTrace cfg) ∧
    (∀ f b, Ev.regAttempt f b ∉ loadTrace cfg ++ connectTrace cfg) ∧
    (∀ b, Ev.connectAttempt b ∉ regTrace cfg ++ (seedTrace cfg ++ listenTrace cfg)) ∧
    Ev.connectSkipped ∉ regTrace cfg ++ (seedTrace cfg ++ listenTrace cfg) ∧
    startTrace cfg = (loadTrace cfg ++ connectTrace cfg)
      ++ (regTrace cfg ++ (seedTrace cfg ++ listenTrace cfg)) := by
  refine ⟨?_, ?_, ?_, ?_, ?_, by simp [startTrace, List.append_assoc]⟩
  · intro hno
    refine ⟨by simp [mongoConnected, hno], ?_⟩
    intro b h
    simp only [startTrace, List.mem_append] at h
    rcases h with (((h | h) | h) | h) | h
    · exact not_connectAttempt_loadTrace cfg b h
    · unfold connectTrace at h
      rw [hno] at h
      simp at h
    · exact not_connectAttempt_regTrace cfg b h
    · exact not_connectAttempt_seedTrace cfg b h
    · exact not_connectAttempt_listenTrace cfg b h
  · intro hl hok
    refine ⟨by simp [mongoConnected, hl, hok], ?_⟩
    simp only [startTrace, List.mem_append]
    left; left; left; right
    unfold connectTrace
    rw [hl, hok]
    simp
  · intro f b h
    rcases List.mem_append.mp h with h | h
    · exact not_regAttempt_loadTrace cfg f b h
    · exact not_regAttempt_connectTrace cfg f b h
  · intro b h
    rcases List.mem_append.mp h with h | h
    · exact not_connectAttempt_regTrace cfg b h
    · rcases List.mem_append.mp h with h | h
      · exact not_connectAttempt_seedTrace cfg b h
      · exact not_connectAttempt_listenTrace cfg b h
  · intro h
    rcases List.mem_append.mp h with h | h
    · exact not_connectSkipped_regTrace cfg h
    · rcases List.mem_append.mp h with h | h
      · exact not_connectSkipped_seedTrace cfg h
      · exact not_connectSkipped_listenTrace cfg h

/-- A configuration where the connector module is missing and the bind
succeeds. -/
def cfgNoConn : Config :=
  Config.mk false true true true true true true true
    false true true true false false false false none [] []

/-- Witness for C4: with the connector missing, no connection attempt
occurs and the flag is false. -/
theorem connection_step_spec_witness :
    mongoConnected cfgNoConn = false ∧
    Ev.connectAttempt true ∉ startTrace cfgNoConn ∧
    Ev.connectAttempt false ∉ startTrace cfgNoConn :=
  ⟨((connection_step_spec cfgNoConn).1 rfl).1,
   ((connection_step_spec cfgNoConn).1 rfl).2 true,
   ((connection_step_spec cfgNoConn).1 rfl).2 false⟩

/-- Claim C8: a bind error is logged with its cause, port-in-use flagged
distinctly, and exits the process with status 1; without a bind error no
exit event appears in the run, whatever else failed. -/
theorem fatal_listen_spec (cfg : Config) :
    (cfg.bindError = none → ∀ c, Ev.exitProcess c ∉ startTrace cfg) ∧
    (∀ e, cfg.bindError = some e →
      Ev.logBindError e ∈ startTrace cfg ∧
      Ev.exitProcess 1 ∈ startTrace cfg ∧
      (e = "EADDRINUSE" → Ev.logPortInUse ∈ startTrace cfg) ∧
      (e ≠ "EADDRINUSE" → Ev.logPortInUse ∉ startTrace cfg)) := by
  constructor
  · intro hbe c h
    simp only [startTrace, List.mem_append] at h
    rcases h with (((h | h) | h) | h) | h
    · exact not_exitProcess_loadTrace cfg c h
    · exact not_exitProcess_connectTrace cfg c h
    · exact not_exitProcess_regTrace cfg c h
    · exact not_exitProcess_seedTrace cfg c h
    · unfold listenTrace at h
      rw [hbe] at h
      simp at h
  · intro e hbe
    refine ⟨?_, ?_, ?_, ?_⟩
    · simp only [startTrace, List.mem_append]
      right
      unfold listenTrace
      rw [hbe]
      simp
    · simp only [startTrace, List.mem_append]
      right
      unfold listenTrace
      rw [hbe]
      simp
    · intro he
      simp only [startTrace, List.mem_append]
      right
      unfold listenTrace
      rw [hbe, he]
      simp
    · intro he h
      simp only [startTrace, List.mem_append] at h
      rcases h with (((h | h) | h) | h) | h
      · exact not_logPortInUse_loadTrace cfg h
      · exact not_logPortInUse_connectTrace cfg h
      · exact not_logPortInUse_regTrace cfg h
      · exact not_logPortInUse_seedTrace cfg h
      · unfold listenTrace at h
        rw [hbe] at h
        simp [beq_eq_false_iff_ne.mpr he] at h

/-- A configuration where everything fails but the bind succeeds. -/
def cfgAllFail : Config :=
  Config.mk true true true true true true true true
    false true true true false false false false none [] []

/-- A configuration whose port is already in use. -/
def cfgBind : Config :=
  Config.mk false false false false false false false false
    false false false false false false false false (some "EADDRINUSE") [] []

/-- Witness for C8: no exit without a bind error even when every earlier
step fails; exit 1 with distinct port-in-use flagging on EADDRINUSE. -/
theorem fatal_listen_spec_witness :
    Ev.exitProcess 1 ∉ startTrace cfgAllFail ∧
    Ev.logBindError "EADDRINUSE" ∈ startTrace cfgBind ∧
    Ev.exitProcess 1 ∈ startTrace cfgBind ∧
    Ev.logPortInUse ∈ startTrace cfgBind :=
  ⟨(fatal_listen_spec cfgAllFail).1 rfl 1,
   ((fatal_listen_spec cfgBind).2 "EADDRINUSE" rfl).1,
   ((fatal_listen_spec cfgBind).2 "EADDRINUSE" rfl).2.1,
   ((fatal_listen_spec cfgBind).2 "EADDRINUSE" rfl).2.2.1 rfl⟩

theorem regAttempt_mem_startTrace_iff (cfg : Config) (f : Feat) (b : Bool) :
    Ev.regAttempt f b ∈ startTrace cfg ↔ Ev.regAttempt f b ∈ regTrace cfg := by
  constructor
  · intro h
    simp only [startTrace, List.mem_append] at h
    rcases h with (((h | h) | h) | h) | h
    · exact absurd h (not_regAttempt_loadTrace cfg f b)
    · exact absurd h (not_regAttempt_connectTrace cfg f b)
    · exact h
    · exact absurd h (not_regAttempt_seedTrace cfg f b)
    · exact absurd h (not_regAttempt_listenTrace cfg f b)
  · intro h
    simp only [startTrace, List.mem_append]
    left; left; right
    exact h

/-- Claim C6: each of the three feature route sets is attempted iff its
module loaded and the database connected (so a throw inside one
registrar, recorded as a failed attempt, never prevents the later
attempts), and the registrar's throw flag only changes the recorded
outcome of its own attempt. -/
theorem feature_registration_spec (cfg : Config) :
    ((∃ b, Ev.regAttempt .mongodb b ∈ startTrace cfg)
        ↔ (mongoConnected cfg = true ∧ cfg.mongoRoutesLoads = true)) ∧
    ((∃ b, Ev.regAttempt .evidence b ∈ startTrace cfg)
        ↔ (mongoConnected cfg = true ∧ cfg.evidenceRoutesLoads = true)) ∧
    ((∃ b, Ev.regAttempt .custodial b ∈ startTrace cfg)
        ↔ (mongoConnected cfg = true ∧ cfg.custodialRoutesLoads = true)) ∧
    (mongoConnected cfg = true → cfg.mongoRoutesLoads = true →
      Ev.regAttempt .mongodb (!cfg.regMongoThrows) ∈ startTrace cfg) ∧
    (mongoConnected cfg = true → cfg.evidenceRoutesLoads = true →
      Ev.regAttempt .evidence (!cfg.regEvidenceThrows) ∈ startTrace cfg) ∧
    (mongoConnected cfg = true → cfg.custodialRoutesLoads = true →
      Ev.regAttempt .custodial (!cfg.regCustodialThrows) ∈ startTrace cfg) := by
  refine ⟨?_, ?_, ?_, ?_, ?_, ?_⟩
  · constructor
    · rintro ⟨b, hb⟩
      rw [regAttempt_mem_startTrace_iff] at hb
      unfold regTrace at hb
      simp only [List.mem_append, List.mem_singleton, List.mem_ite_nil_right,
        List.not_mem_nil, or_false, false_or] at hb
      rcases hb with ((hb | hb) | hb) | hb
      · simpa [Bool.and_eq_true] using hb.1
      · exfalso; have he := hb.2; simp at he
      · exfalso; have he := hb.2; simp at he
      · exfalso; simp at hb
    · rintro ⟨hc, hl⟩
      exact ⟨!cfg.regMongoThrows, (regAttempt_mem_startTrace_iff cfg _ _).mpr
        (by unfold regTrace; simp [hc, hl])⟩
  · constructor
    · rintro ⟨b, hb⟩
      rw [regAttempt_mem_startTrace_iff] at hb
      unfold regTrace at hb
      simp only [List.mem_append, List.mem_singleton, List.mem_ite_nil_right,
        List.not_mem_nil, or_false, false_or] at hb
      rcases hb with ((hb | hb) | hb) | hb
      · exfalso; have he := hb.2; simp at he
      · simpa [Bool.and_eq_true] using hb.1
      · exfalso; have he := hb.2; simp at he
      · exfalso; simp at hb
    · rintro ⟨hc, hl⟩
      exact ⟨!cfg.regEvidenceThrows, (regAttempt_mem_startTrace_iff cfg _ _).mpr
        (by unfold regTrace; simp [hc, hl])⟩
  · constructor
    · rintro ⟨b, hb⟩
      rw [regAttempt_mem_startTrace_iff] at hb
      unfold regTrace at hb
      simp only [List.mem_append, List.mem_singleton, List.mem_ite_nil_right,
        List.not_mem_nil, or_false, false_or] at hb
      rcases hb with ((hb | hb) | hb) | hb
      · exfalso; have he := hb.2; simp at he
      · exfalso; have he := hb.2; simp at he
      · simpa [Bool.and_eq_true] using hb.1
      · exfalso; simp at hb
    · rintro ⟨hc, hl⟩
      exact ⟨!cfg.regCustodialThrows, (regAttempt_mem_startTrace_iff cfg _ _).mpr
        (by unfold regTrace; simp [hc, hl])⟩
  · intro hc hl
    exact (regAttempt_mem_startTrace_iff cfg _ _).mpr (by unfold regTrace; simp [hc, hl])
  · intro hc hl
    exact (regAttempt_mem_startTrace_iff cfg _ _).mpr (by unfold regTrace; simp [hc, hl])
  · intro hc hl
    exact (regAttempt_mem_startTrace_iff cfg _ _).mpr (by unfold regTrace; simp [hc, hl])

/-- A connected configuration where all three registrars are present and
the first two throw during registration. -/
def cfgRegThrow : Config :=
  Config.mk true true true true false false false false
    true true true false false false false false none [] []

/-- Witness for C6: even with the mongodb and evidence registrars
throwing, all three features are still attempted. -/
theorem feature_registration_spec_witness :
    Ev.regAttempt .mongodb false ∈ startTrace cfgRegThrow ∧
    Ev.regAttempt .evidence false ∈ startTrace cfgRegThrow ∧
    Ev.regAttempt .custodial true ∈ startTrace cfgRegThrow :=
  ⟨(feature_registration_spec cfgRegThrow).2.2.2.1 rfl rfl,
   (feature_registration_spec cfgRegThrow).2.2.2.2.1 rfl rfl,
   (feature_registration_spec cfgRegThrow).2.2.2.2.2 rfl rfl⟩

/-- Claim C2 (amended): the background seeder never produces a process
exit (both failure modes are caught); geofile seeding is attempted
whenever its module loaded, regardless of the admin flags; but a throw
in geofile seeding is caught by the outer handler and SKIPS the
admin-account seeding, which is only attempted when geofile seeding
succeeded or was absent. -/
theorem background_seeder_spec (cfg : Config) :
    (∀ c, Ev.exitProcess c ∉ seederEvents cfg) ∧
    (cfg.seedGeofilesLoads = true →
      Ev.seedGeofilesCall cfg.seedGeofilesOk ∈ seederEvents cfg) ∧
    (cfg.seedGeofilesLoads = true → cfg.seedGeofilesOk = false →
      ∀ b, Ev.seedAdminImport b ∉ seederEvents cfg ∧
        Ev.seedAdminCall b ∉ seederEvents cfg) ∧
    ((cfg.seedGeofilesLoads = false ∨ cfg.seedGeofilesOk = true) →
      Ev.seedAdminImport cfg.seedAdminLoads ∈ seederEvents cfg) := by
  refine ⟨not_exitProcess_seeder cfg, ?_, ?_, ?_⟩
  · intro h
    cases hok : cfg.seedGeofilesOk <;> simp [seederEvents, h, hok]
  · intro hl hok b
    constructor <;> intro h <;> simp [seederEvents, hl, hok] at h
  · rintro (h | h)
    · simp [seederEvents, adminEvents, h]
    · cases hl : cfg.seedGeofilesLoads <;> simp [seederEvents, adminEvents, h, hl]

/-- A connected configuration whose geofile seeding throws while the
admin module is present and would succeed. -/
def cfgSeedFail : Config :=
  Config.mk true false false false false true false true
    true false false false false false true false none [] []

/-- Counterexample to C2 as stated: geofile seeding throws, the process
stays alive (no exit event), but the admin-account seeding is never
attempted — the outer catch skips it, contradicting the claimed
independence. -/
theorem background_seeder_counterexample :
    Ev.seedGeofilesCall false ∈ startTrace cfgSeedFail ∧
    Ev.seedAdminImport true ∉ startTrace cfgSeedFail ∧
    Ev.seedAdminImport false ∉ startTrace cfgSeedFail ∧
    Ev.seedAdminCall true ∉ startTrace cfgSeedFail ∧
    Ev.seedAdminCall false ∉ startTrace cfgSeedFail ∧
    Ev.exitProcess 1 ∉ startTrace cfgSeedFail := by decide

/-- Witness for the amended C2 at the same concrete configuration. -/
theorem background_seeder_spec_witness :
    Ev.seedGeofilesCall false ∈ seederEvents cfgSeedFail ∧
    Ev.seedAdminImport true ∉ seederEvents cfgSeedFail ∧
    Ev.exitProcess 1 ∉ seederEvents cfgSeedFail :=
  ⟨(background_seeder_spec cfgSeedFail).2.1 rfl,
   ((background_seeder_spec cfgSeedFail).2.2.1 rfl rfl true).1,
   (background_seeder_spec cfgSeedFail).1 1⟩
